import Mathlib

/-
Verification development for the quiz-chain orchestrator
(llm-quiz-analyzer-tds).  The Python sources are shallowly embedded:
strings are lists of characters, `json.loads` / `json.dumps` are modelled
by an executable JSON parser / serializer, and the stateful chain loop of
`QuizSolver.solve_quiz_chain` is modelled as a recursive function over an
explicit trace of clock readings and step results.
-/

/-- ASCII double quote, kept as a named constant. -/
def quoteChar : Char := Char.ofNat 34

/-- ASCII single quote, kept as a named constant. -/
def aposChar : Char := Char.ofNat 39

/-- ASCII backtick, kept as a named constant. -/
def btChar : Char := Char.ofNat 96

/-- Characters stripped by Python `str.strip()` with no argument
(the ASCII whitespace subset, which is all the claims exercise). -/
def pyWs (c : Char) : Bool :=
  c = ' ' || c = '\t' || c = '\n' || c = '\r' || c = Char.ofNat 11 || c = Char.ofNat 12

/-- Remove trailing characters satisfying `p` (helper for `str.strip`). -/
def dropTail (p : Char → Bool) (l : List Char) : List Char :=
  (l.reverse.dropWhile p).reverse

/-- Python `s.strip()`: drop leading then trailing whitespace. -/
def pyStrip (l : List Char) : List Char :=
  dropTail pyWs (l.dropWhile pyWs)

/-- Python `s.strip(QUOTE)`: drop all leading and trailing double quotes. -/
def stripQuotesEnds (l : List Char) : List Char :=
  dropTail (fun c => c = quoteChar) (l.dropWhile (fun c => c = quoteChar))

/-- Python `s[len(pre):]` applied when `s.startswith(pre)`, else `s`. -/
def dropPre (pre l : List Char) : List Char :=
  if pre.isPrefixOf l then l.drop pre.length else l

/-- Python `s[:-len(suf)]` applied when `s.endswith(suf)`, else `s`. -/
def dropSuf (suf l : List Char) : List Char :=
  if suf.isSuffixOf l then l.take (l.length - suf.length) else l

mutual

/-- Python JSON values as produced by `json.loads`: `null`, booleans,
ints, floats (kept as their source literal, never computed with),
strings, arrays and objects. -/
inductive Json where
  | null : Json
  | bool (b : Bool) : Json
  | int (n : Int) : Json
  | float (lit : List Char) : Json
  | str (s : List Char) : Json
  | arr (xs : JsonList) : Json
  | obj (kvs : JsonKvs) : Json

/-- Array elements, as a mutual list so structural recursion works. -/
inductive JsonList where
  | nil : JsonList
  | cons (hd : Json) (tl : JsonList) : JsonList

/-- Object members in source order (Python dicts preserve insertion order). -/
inductive JsonKvs where
  | nil : JsonKvs
  | cons (k : List Char) (v : Json) (tl : JsonKvs) : JsonKvs

end

/-- JSON insignificant whitespace skipped by the decoder. -/
def skipJsonWs (l : List Char) : List Char :=
  l.dropWhile (fun c => c = ' ' || c = '\t' || c = '\n' || c = '\r')

/-- Value of one hexadecimal digit. -/
def hexVal (c : Char) : Option Nat :=
  if 48 ≤ c.toNat ∧ c.toNat ≤ 57 then some (c.toNat - 48)
  else if 97 ≤ c.toNat ∧ c.toNat ≤ 102 then some (c.toNat - 87)
  else if 65 ≤ c.toNat ∧ c.toNat ≤ 70 then some (c.toNat - 55)
  else none

/-- Value of a four-digit hexadecimal escape. -/
def hex4 (a b c d : Char) : Option Nat := do
  let x ← hexVal a
  let y ← hexVal b
  let z ← hexVal c
  let w ← hexVal d
  pure (((x * 16 + y) * 16 + z) * 16 + w)

/-- JSON string body decoder (the opening quote is already consumed).
Returns the decoded characters and the unconsumed input.  Implements
the escapes accepted by `json.loads`, combining surrogate pairs; a lone
surrogate is rejected (Python would keep it, but no claim involves one,
and Lean characters are scalar values). -/
def parseJStr : Nat → List Char → Option (List Char × List Char)
  | 0, _ => none
  | fuel + 1, input =>
    match input with
    | [] => none
    | c :: rest =>
      if c = quoteChar then some ([], rest)
      else if c = '\\' then
        match rest with
        | [] => none
        | e :: rest2 =>
          let esc : Option Char :=
            if e = quoteChar then some quoteChar
            else if e = '\\' then some '\\'
            else if e = '/' then some '/'
            else if e = 'b' then some (Char.ofNat 8)
            else if e = 'f' then some (Char.ofNat 12)
            else if e = 'n' then some (Char.ofNat 10)
            else if e = 'r' then some (Char.ofNat 13)
            else if e = 't' then some (Char.ofNat 9)
            else none
          match esc with
          | some ch => (parseJStr fuel rest2).map (fun p => (ch :: p.1, p.2))
          | none =>
            if e = 'u' then
              match rest2 with
              | h1 :: h2 :: h3 :: h4 :: rest3 =>
                match hex4 h1 h2 h3 h4 with
                | none => none
                | some n =>
                  if 0xD800 ≤ n ∧ n ≤ 0xDBFF then
                    match rest3 with
                    | b1 :: b2 :: g1 :: g2 :: g3 :: g4 :: rest4 =>
                      if b1 = '\\' ∧ b2 = 'u' then
                        match hex4 g1 g2 g3 g4 with
                        | none => none
                        | some m =>
                          if 0xDC00 ≤ m ∧ m ≤ 0xDFFF then
                            (parseJStr fuel rest4).map (fun p =>
                              (Char.ofNat (0x10000 + (n - 0xD800) * 0x400 + (m - 0xDC00)) :: p.1, p.2))
                          else none
                      else none
                    | _ => none
                  else if 0xDC00 ≤ n ∧ n ≤ 0xDFFF then none
                  else (parseJStr fuel rest3).map (fun p => (Char.ofNat n :: p.1, p.2))
              | _ => none
            else none
      else if c.toNat < 32 then none
      else (parseJStr fuel rest).map (fun p => (c :: p.1, p.2))

/-- Decimal digit test. -/
def isDigitCh (c : Char) : Bool := decide (48 ≤ c.toNat ∧ c.toNat ≤ 57)

/-- Numeric value of a digit run. -/
def natFromDigits (ds : List Char) : Nat :=
  ds.foldl (fun n c => 10 * n + (c.toNat - 48)) 0

/-- JSON number scanner, per the decoder's number grammar:
optional minus, `0` or a nonzero-led digit run, optional fraction,
optional exponent.  Integer literals become `Json.int`; anything with a
fraction or exponent becomes `Json.float` carrying its literal text. -/
def parseNum (l : List Char) : Option (Json × List Char) :=
  let sign : Bool × List Char :=
    match l with
    | c :: r => if c = '-' then (true, r) else (false, l)
    | [] => (false, l)
  match sign.2 with
  | [] => none
  | c :: r =>
    if isDigitCh c then
      let ipr : List Char × List Char :=
        if c = '0' then ([c], r)
        else (sign.2.takeWhile isDigitCh, sign.2.dropWhile isDigitCh)
      let fpr : List Char × List Char :=
        match ipr.2 with
        | d :: r1a =>
          if d = '.' then
            let ds := r1a.takeWhile isDigitCh
            if ds.isEmpty then ([], ipr.2) else (d :: ds, r1a.dropWhile isDigitCh)
          else ([], ipr.2)
        | [] => ([], ipr.2)
      let epr : List Char × List Char :=
        match fpr.2 with
        | e :: r2a =>
          if e = 'e' ∨ e = 'E' then
            let sg : List Char × List Char :=
              match r2a with
              | s :: r2c => if s = '+' ∨ s = '-' then ([s], r2c) else ([], r2a)
              | [] => ([], r2a)
            let ds := sg.2.takeWhile isDigitCh
            if ds.isEmpty then ([], fpr.2) else (e :: (sg.1 ++ ds), sg.2.dropWhile isDigitCh)
          else ([], fpr.2)
        | [] => ([], fpr.2)
      if fpr.1.isEmpty ∧ epr.1.isEmpty then
        let v : Int := Int.ofNat (natFromDigits ipr.1)
        some (Json.int (if sign.1 then -v else v), epr.2)
      else
        some (Json.float ((if sign.1 then ['-'] else []) ++ ipr.1 ++ fpr.1 ++ epr.1), epr.2)
    else none

/-- Scanner for non-composite values: the keyword constants accepted by
`json.loads` (including `NaN` and the infinities) and numbers. -/
def parseScalar (l : List Char) : Option (Json × List Char) :=
  if ("true".data).isPrefixOf l then some (Json.bool true, l.drop 4)
  else if ("false".data).isPrefixOf l then some (Json.bool false, l.drop 5)
  else if ("null".data).isPrefixOf l then some (Json.null, l.drop 4)
  else if ("NaN".data).isPrefixOf l then some (Json.float ("NaN".data), l.drop 3)
  else if ("Infinity".data).isPrefixOf l then some (Json.float ("Infinity".data), l.drop 8)
  else if ("-Infinity".data).isPrefixOf l then some (Json.float ("-Infinity".data), l.drop 9)
  else parseNum l

mutual

/-- Recursive-descent JSON value decoder with fuel (fuel only bounds
recursion depth; `jsonLoads` supplies enough for any input). -/
def parseVal : Nat → List Char → Option (Json × List Char)
  | 0, _ => none
  | fuel + 1, input =>
    match skipJsonWs input with
    | [] => none
    | c :: rest =>
      if c = quoteChar then
        (parseJStr (input.length + 1) rest).map (fun p => (Json.str p.1, p.2))
      else if c = '{' then
        match skipJsonWs rest with
        | d :: rest2 =>
          if d = '}' then some (Json.obj JsonKvs.nil, rest2)
          else (parseMembers fuel (d :: rest2)).map (fun p => (Json.obj p.1, p.2))
        | [] => none
      else if c = '[' then
        match skipJsonWs rest with
        | d :: rest2 =>
          if d = ']' then some (Json.arr JsonList.nil, rest2)
          else (parseElems fuel (d :: rest2)).map (fun p => (Json.arr p.1, p.2))
        | [] => none
      else parseScalar (c :: rest)

/-- Object members: `"key" : value` separated by commas, closed by a brace. -/
def parseMembers : Nat → List Char → Option (JsonKvs × List Char)
  | 0, _ => none
  | fuel + 1, input =>
    match input with
    | c :: rest =>
      if c = quoteChar then
        match parseJStr (rest.length + 1) rest with
        | none => none
        | some (k, r2) =>
          match skipJsonWs r2 with
          | d :: r4 =>
            if d = ':' then
              match parseVal fuel r4 with
              | none => none
              | some (v, r5) =>
                match skipJsonWs r5 with
                | e :: r7 =>
                  if e = ',' then
                    (parseMembers fuel (skipJsonWs r7)).map
                      (fun p => (JsonKvs.cons k v p.1, p.2))
                  else if e = '}' then some (JsonKvs.cons k v JsonKvs.nil, r7)
                  else none
                | [] => none
            else none
          | [] => none
      else none
    | [] => none

/-- Array elements separated by commas, closed by a bracket. -/
def parseElems : Nat → List Char → Option (JsonList × List Char)
  | 0, _ => none
  | fuel + 1, input =>
    match parseVal fuel input with
    | none => none
    | some (v, r1) =>
      match skipJsonWs r1 with
      | e :: r2 =>
        if e = ',' then
          (parseElems fuel r2).map (fun p => (JsonList.cons v p.1, p.2))
        else if e = ']' then some (JsonList.cons v JsonList.nil, r2)
        else none
      | [] => none

end

/-- Python `json.loads`: decode one value and require only whitespace
after it, otherwise fail (the `Extra data` error). -/
def jsonLoads (l : List Char) : Option Json :=
  match parseVal (2 * l.length + 4) l with
  | some (v, rest) => if skipJsonWs rest = [] then some v else none
  | none => none

/-- Lowercase hexadecimal digit. -/
def hexDigitCh (n : Nat) : Char :=
  if n < 10 then Char.ofNat (48 + n) else Char.ofNat (87 + n)

/-- Four-digit lowercase hexadecimal rendering used by `\uXXXX` escapes. -/
def hexEsc4 (n : Nat) : List Char :=
  ['\\', 'u', hexDigitCh (n / 4096 % 16), hexDigitCh (n / 256 % 16),
   hexDigitCh (n / 16 % 16), hexDigitCh (n % 16)]

/-- One character escaped as `json.dumps` (default `ensure_ascii=True`)
renders it inside a string literal. -/
def escapeJsonChar (c : Char) : List Char :=
  if c = quoteChar then ['\\', quoteChar]
  else if c = '\\' then ['\\', '\\']
  else if c = Char.ofNat 10 then ['\\', 'n']
  else if c = Char.ofNat 9 then ['\\', 't']
  else if c = Char.ofNat 13 then ['\\', 'r']
  else if c = Char.ofNat 8 then ['\\', 'b']
  else if c = Char.ofNat 12 then ['\\', 'f']
  else if c.toNat < 32 then hexEsc4 c.toNat
  else if c.toNat < 127 then [c]
  else if c.toNat < 0x10000 then hexEsc4 c.toNat
  else
    hexEsc4 (0xD800 + (c.toNat - 0x10000) / 0x400) ++
      hexEsc4 (0xDC00 + (c.toNat - 0x10000) % 0x400)

/-- Digits of a natural number. -/
def natToChars (n : Nat) : List Char := Nat.toDigits 10 n

/-- Rendering of a Python int. -/
def intToChars (n : Int) : List Char :=
  if n < 0 then '-' :: natToChars (-n).toNat else natToChars n.toNat

/-- A JSON string literal as serialized by `json.dumps`. -/
def dumpJStr (s : List Char) : List Char :=
  quoteChar :: (s.map escapeJsonChar).flatten ++ [quoteChar]

mutual

/-- Python `json.dumps` with its default separators (`, ` and `: `)
and `ensure_ascii=True`.  Floats serialize as their stored literal. -/
def jsonDumps : Json → List Char
  | Json.null => "null".data
  | Json.bool true => "true".data
  | Json.bool false => "false".data
  | Json.int n => intToChars n
  | Json.float lit => lit
  | Json.str s => dumpJStr s
  | Json.arr xs => '[' :: dumpsArr xs ++ [']']
  | Json.obj kvs => '{' :: dumpsObj kvs ++ ['}']

/-- Serialize array elements, comma-space separated. -/
def dumpsArr : JsonList → List Char
  | JsonList.nil => []
  | JsonList.cons v JsonList.nil => jsonDumps v
  | JsonList.cons v (JsonList.cons w tl) =>
      jsonDumps v ++ ", ".data ++ dumpsArr (JsonList.cons w tl)

/-- Serialize object members, comma-space separated. -/
def dumpsObj : JsonKvs → List Char
  | JsonKvs.nil => []
  | JsonKvs.cons k v JsonKvs.nil => dumpJStr k ++ ": ".data ++ jsonDumps v
  | JsonKvs.cons k v (JsonKvs.cons k2 v2 tl) =>
      dumpJStr k ++ ": ".data ++ jsonDumps v ++ ", ".data ++
        dumpsObj (JsonKvs.cons k2 v2 tl)

end

/-- UTF-8 byte length of a string, as computed by `len(s.encode(UTF8))`. -/
def utf8Len (l : List Char) : Nat := (l.map Char.utf8Size).sum

/-- Membership test `key in parsed` for a decoded dict. -/
def hasKeyKvs : JsonKvs → List Char → Bool
  | JsonKvs.nil, _ => false
  | JsonKvs.cons k _ tl, key => k == key || hasKeyKvs tl key

/-- The opening fence marker with language tag, `BT BT BT j s o n`
(seven characters), from `llm_handler.py` line 189. -/
def fenceJson : List Char := [btChar, btChar, btChar] ++ "json".data

/-- A bare fence marker, three backticks. -/
def fence3 : List Char := [btChar, btChar, btChar]

/-- Markdown-fence removal of `LLMHandler._parse_llm_response`
(`llm_handler.py` lines 188-195): strip, drop a leading seven-character
tagged fence if present, then a leading bare fence, then a trailing
bare fence, then re-strip. -/
def removeFences (s : List Char) : List Char :=
  pyStrip (dropSuf fence3 (dropPre fence3 (dropPre fenceJson (pyStrip s))))

/-- Character class `[^\s quote apos]` of the submit-URL pattern. -/
def urlChar (c : Char) : Bool :=
  !(pyWs c) && !(c = quoteChar) && !(c = aposChar)

/-- Whether `pat` occurs contiguously anywhere in the input. -/
def hasSeq (pat : List Char) : List Char → Bool
  | [] => pat.isEmpty
  | c :: cs => pat.isPrefixOf (c :: cs) || hasSeq pat cs

/-- Match of the regex `https COLON SLASH SLASH [^ws quote apos]+ /submit
[^ws quote apos]*` anchored at the head of the input: the scheme, then the
maximal run of allowed characters, which must contain `/submit` at offset
at least one (the `+` needs a character before it); the greedy groups then
make the whole run part of the match. -/
def tryUrlAt (l : List Char) : Option (List Char) :=
  if ("https://".data).isPrefixOf l then
    let run := (l.drop 8).takeWhile urlChar
    if hasSeq ("/submit".data) (run.drop 1) then some ("https://".data ++ run)
    else none
  else none

/-- Leftmost match of the submit-URL pattern, as `re.search` finds it
(`llm_handler.py` line 214). -/
def findSubmitUrl : List Char → Option (List Char)
  | [] => none
  | c :: cs =>
    match tryUrlAt (c :: cs) with
    | some m => some m
    | none => findSubmitUrl cs

/-- Capture-class `[^,}\n]` of the answer pattern. -/
def capChar (c : Char) : Bool :=
  !(c = ',') && !(c = '}') && !(c = Char.ofNat 10)

/-- Backtracked capture when the character after the whitespace run
cannot start the capture group: the greedy `\s*` gives characters back
one at a time, so the match succeeds at the last whitespace character
that is in the capture class (every whitespace character except the
newline); the characters after it in the run are newlines, so the
capture is exactly that one character.  If the run has no such
character, the match fails at this position. -/
def backtrackCapture (w : List Char) : Option (List Char) :=
  match w.reverse.find? capChar with
  | some c => some [c]
  | none => none

/-- Match of the regex `QUOTE answer QUOTE \s* : \s* ([^,}\n]+)` anchored
at the head of the input, returning the capture group.  After the colon
the greedy `\s*` takes the whole whitespace run; if the next character is
in the capture class the capture is the greedy run from there, and
otherwise (next character is a comma or closing brace, or the input
ends — a newline cannot follow a maximal whitespace run) the engine
backtracks `\s*` into the capture. -/
def tryAnswerAt (l : List Char) : Option (List Char) :=
  if ("\"answer\"".data).isPrefixOf l then
    match (l.drop 8).dropWhile pyWs with
    | d :: r3 =>
      if d = ':' then
        let w := r3.takeWhile pyWs
        let rem := r3.dropWhile pyWs
        match rem with
        | c :: _ =>
          if capChar c then some (rem.takeWhile capChar)
          else backtrackCapture w
        | [] => backtrackCapture w
      else none
    | [] => none
  else none

/-- Leftmost capture of the answer pattern, as `re.search` finds it
(`llm_handler.py` line 219). -/
def findAnswerCapture : List Char → Option (List Char)
  | [] => none
  | c :: cs =>
    match tryAnswerAt (c :: cs) with
    | some cap => some cap
    | none => findAnswerCapture cs

/-- Fallback pattern extraction of `_parse_llm_response`
(`llm_handler.py` lines 212-235), reached only on a strict-parse failure:
find a submit-URL-shaped string and an `answer` capture in the original
raw text; the capture is stripped of whitespace then of surrounding
double quotes and re-parsed as JSON, falling back to the literal string;
a dict with exactly the two required fields is returned only when both
patterns matched, else the whole call reports failure. -/
def manualExtract (response : List Char) : Option Json :=
  match findSubmitUrl response with
  | none => none
  | some url =>
    match findAnswerCapture response with
    | none => none
    | some cap =>
      let answerStr := stripQuotesEnds (pyStrip cap)
      let ans : Json :=
        match jsonLoads answerStr with
        | some v => v
        | none => Json.str answerStr
      some (Json.obj (JsonKvs.cons ("submit_url".data) (Json.str url)
        (JsonKvs.cons ("answer".data) ans JsonKvs.nil)))

/-- `LLMHandler._parse_llm_response` (`llm_handler.py` lines 183-238).
Strict path: fence removal, `json.loads`, then the required-field check
`submit_url in parsed and answer in parsed`; only a decode error falls
through to `manualExtract`.  A successful decode to a non-dict value
always yields `None` in the source: either the `in` test raises
`TypeError` (int, float, bool, null), or indexing in the success log line
raises (str, list); every such exception is swallowed into `None`, so the
non-dict case collapses to `none` here. -/
def parseLlmResponse (response : List Char) : Option Json :=
  match jsonLoads (removeFences response) with
  | some (Json.obj kvs) =>
    if hasKeyKvs kvs ("submit_url".data) && hasKeyKvs kvs ("answer".data) then
      some (Json.obj kvs)
    else none
  | some _ => none
  | none => manualExtract response

/-- An HTTP response as seen by the submission handler: a status code and
a body text (`response.json()` is `jsonLoads` of the body). -/
structure HttpResponse where
  status : Nat
  body : List Char

/-- Behaviour of the one network call a submission may make: either the
client raises a transport error (`httpx.HTTPError`) or a response comes
back. -/
inductive NetBehavior where
  | transportError : NetBehavior
  | response (r : HttpResponse) : NetBehavior

/-- `Config.MAX_FILE_SIZE` (`config.py` line 26): 1 MiB. -/
def MAX_FILE_SIZE : Nat := 1024 * 1024

/-- The wire payload built by `SubmissionHandler.submit_answer`
(`submission_handler.py` lines 45-50). -/
def buildPayload (email secret quizUrl : List Char) (answer : Json) : Json :=
  Json.obj (JsonKvs.cons ("email".data) (Json.str email)
    (JsonKvs.cons ("secret".data) (Json.str secret)
      (JsonKvs.cons ("url".data) (Json.str quizUrl)
        (JsonKvs.cons ("answer".data) answer JsonKvs.nil))))

/-- `SubmissionHandler.submit_answer` (`submission_handler.py` lines
22-93).  Output: the returned value and whether the network call was
made.  The size gate compares the UTF-8 byte length of the serialized
payload against the configured maximum and returns `None` locally when
exceeded.  On status 200 the body is decoded; a decode failure there
raises `json.JSONDecodeError`, which the generic `except Exception`
swallows into `None`.  On any other status a decodable body is returned
as-is, and an undecodable one is replaced by the synthesized
`correct: false / HTTP status: body` dict.  A transport error yields
`None`. -/
def submitAnswer (maxFileSize : Nat) (email secret quizUrl : List Char)
    (answer : Json) (net : NetBehavior) : Option Json × Bool :=
  let payloadStr := jsonDumps (buildPayload email secret quizUrl answer)
  if utf8Len payloadStr > maxFileSize then (none, false)
  else
    match net with
    | NetBehavior.transportError => (none, true)
    | NetBehavior.response r =>
      if r.status = 200 then
        match jsonLoads r.body with
        | some j => (some j, true)
        | none => (none, true)
      else
        match jsonLoads r.body with
        | some j => (some j, true)
        | none =>
          (some (Json.obj (JsonKvs.cons ("correct".data) (Json.bool false)
            (JsonKvs.cons ("reason".data)
              (Json.str ("HTTP ".data ++ natToChars r.status ++ ": ".data ++ r.body))
              JsonKvs.nil))), true)

/-- One step result as the chain loop consumes it: the dict returned by
`solve_single_quiz`, reduced to the truthiness of its `correct` entry and
its optional `url` entry (`None` when the dict is absent or the key is
missing). -/
structure StepOutcome where
  correct : Bool
  url : Option String
  deriving DecidableEq, Repr

/-- Truthiness of `result and result.get(CORRECT)`. -/
def resCorrect : Option StepOutcome → Bool
  | none => false
  | some r => r.correct

/-- `result.get(URL) if result else None`. -/
def resUrl : Option StepOutcome → Option String
  | none => none
  | some r => r.url

/-- Python truthiness of an optional URL string: `None` and the empty
string are falsy. -/
def truthy : Option String → Bool
  | none => false
  | some s => !s.isEmpty

/-- The external observations of one loop iteration of
`solve_quiz_chain`: the clock reading taken by the `while` condition, the
original step result, the clock reading taken by the retry-affordability
check, and the retry step result (consumed only if the retry runs). -/
structure Iter where
  tLoop : Int
  res1 : Option StepOutcome
  tRetry : Int
  res2 : Option StepOutcome
  deriving DecidableEq, Repr

/-- Record of one `solve_single_quiz` invocation: the URL it was given,
the clock reading of the gate that admitted it, and whether it was the
retry of its iteration. -/
structure AttemptRec where
  url : String
  time : Int
  isRetry : Bool
  deriving DecidableEq, Repr

/-- How the loop of `solve_quiz_chain` ended: the `while` condition went
false on the URL, the `while` condition went false on the clock, the
`break` after a correct step with no next URL (line 51), the `break` when
no URL is left after a failure (line 71), the `AttributeError` raised at
line 54 (the failure log's f-string calls `result.get` on a `None` step
result) which escapes to the `except` at line 73 and ends the chain, or
the modelled trace ran out while the loop would continue. -/
inductive ExitKind where
  | urlFalsy : ExitKind
  | timedOut : ExitKind
  | completedBreak : ExitKind
  | exhaustedBreak : ExitKind
  | crashed : ExitKind
  | fuelOut : ExitKind
  deriving DecidableEq, Repr

/-- Result of a run of the chain loop: every step attempt it admitted, in
order, and how it ended. -/
structure RunResult where
  attempts : List AttemptRec
  exit : ExitKind
  deriving DecidableEq, Repr

/-- The loop of `QuizSolver.solve_quiz_chain` (`quiz_solver.py` lines
38-71) over an explicit trace.  `T` is `config.QUIZ_TIMEOUT`, `start` is
`start_time`; each iteration consumes one `Iter`.  The transcription is
line by line: the `while` tests URL truthiness then `tLoop - start < T`;
a correct result advances to its `url` or breaks completed.  In the
failure branch the first statement (line 54) formats
`result.get(REASON, ...)` into the warning message, which raises
`AttributeError` when the step result is `None`; the exception escapes
to the `except` at line 73 and the chain ends with no retry and no
skip-forward.  For a dict result, `next_url` is taken from the original
result only, one retry of the same URL runs when
`tRetry - start < T - 30`, a correct retry advances to the retry's
`url`, and otherwise the loop advances to `next_url` when truthy or
breaks exhausted. -/
def runChain (T start : Int) : Option String → List Iter → RunResult
  | _, [] => RunResult.mk [] ExitKind.fuelOut
  | u, it :: rest =>
    if truthy u then
      if it.tLoop - start < T then
        let us := u.getD ""
        let a1 : AttemptRec := AttemptRec.mk us it.tLoop false
        if resCorrect it.res1 then
          if truthy (resUrl it.res1) then
            let p := runChain T start (resUrl it.res1) rest
            RunResult.mk (a1 :: p.attempts) p.exit
          else RunResult.mk [a1] ExitKind.completedBreak
        else if it.res1 = none then RunResult.mk [a1] ExitKind.crashed
        else
          if it.tRetry - start < T - 30 then
            let a2 : AttemptRec := AttemptRec.mk us it.tRetry true
            if resCorrect it.res2 then
              let p := runChain T start (resUrl it.res2) rest
              RunResult.mk (a1 :: a2 :: p.attempts) p.exit
            else
              if truthy (resUrl it.res1) then
                let p := runChain T start (resUrl it.res1) rest
                RunResult.mk (a1 :: a2 :: p.attempts) p.exit
              else RunResult.mk [a1, a2] ExitKind.exhaustedBreak
          else
            if truthy (resUrl it.res1) then
              let p := runChain T start (resUrl it.res1) rest
              RunResult.mk (a1 :: p.attempts) p.exit
            else RunResult.mk [a1] ExitKind.exhaustedBreak
      else RunResult.mk [] ExitKind.timedOut
    else RunResult.mk [] ExitKind.urlFalsy

/-- The three per-session client resources named by the spec. -/
inductive ClientKind where
  | browser : ClientKind
  | llm : ClientKind
  | submission : ClientKind
  deriving DecidableEq, Repr

/-- A whole session: loop outcome plus the clients released on exit. -/
structure ChainRun where
  attempts : List AttemptRec
  exit : ExitKind
  closed : List ClientKind
  deriving DecidableEq, Repr

/-- `QuizSolver.solve_quiz_chain` including its cleanup: whatever path
the `try` body takes (and whatever the `except` swallows), the `finally`
at `quiz_solver.py` line 76 awaits `self.browser_handler.close()` and
nothing else; `LLMHandler.close` and `SubmissionHandler.close` are never
invoked by the session. -/
def solveQuizChain (T start : Int) (u : Option String) (iters : List Iter) : ChainRun :=
  let r := runChain T start u iters
  ChainRun.mk r.attempts r.exit [ClientKind.browser]

/-- Completion text of the spec's fenced example (the spec names the
required field `submitURL`; the concrete key emitted by the prompt and
checked by the code is `submit_url`). -/
def c8text : List Char :=
  "```json\n\x7b\"submit_url\":\"https://x/submit\",\"answer\":\"42\"\x7d\n```".data

/-- A payload that strict-parses to a valid solution but whose
`submit_url` value contains no `/submit` segment. -/
def c5plain : List Char := "\x7b\"submit_url\":\"https://x/s\",\"answer\":1\x7d".data

/-- The same payload wrapped in a pair of code fences with language tag
`python`. -/
def c5wrapped : List Char := "```python\n".data ++ c5plain ++ "\n```".data

/-- A payload that strict-parses to a valid solution, is pre-stripped,
and carries no fence of its own (used to instantiate the amended
fence-stripping property). -/
def c5okPlain : List Char := "\x7b\"submit_url\":\"https://x/submit\",\"answer\":1\x7d".data

/-- First-character unfolding of `List.isPrefixOf` on two conses. -/
theorem isPrefixOf_cons_eq (a b : Char) (as bs : List Char) :
    (a :: as).isPrefixOf (b :: bs) = (a == b && as.isPrefixOf bs) := rfl

/-- A list is a Boolean prefix of itself followed by anything. -/
theorem isPrefixOf_self_append (l x : List Char) : l.isPrefixOf (l ++ x) = true :=
  List.isPrefixOf_iff_prefix.mpr (List.prefix_append l x)

/-- If the attempts list of a chain run is nonempty, its first element is
a non-retry attempt (the first step of an iteration). -/
theorem runChain_attempts_head_not_retry (T start : Int) (u : Option String)
    (l : List Iter) :
    ∀ b tl, (runChain T start u l).attempts = b :: tl → b.isRetry = false := by
  cases l with
  | nil => intro b tl h; simp [runChain] at h
  | cons it rest =>
    intro b tl h
    simp only [runChain] at h
    split_ifs at h <;> simp at h <;> exact h.1 ▸ rfl

/-- Claim C1, counterexample.  One iteration on URL `q`: the original
attempt fails with no next URL, the affordable retry fails but supplies
next URL `n`.  The claim requires a SkippedForward transition (the loop
continuing with `n`); the code ends the chain ExhaustedBreak, never
attempting `n`, because `next_url` is read only from the original
attempt (`quiz_solver.py` line 55). -/
theorem c1_retry_url_ignored_counterexample :
    runChain 170 0 (some "q")
      [Iter.mk 0 (some (StepOutcome.mk false none)) 1 (some (StepOutcome.mk false (some "n")))]
      = RunResult.mk [AttemptRec.mk "q" 0 false, AttemptRec.mk "q" 1 true]
          ExitKind.exhaustedBreak := by
  decide

/-- Claim C1, amended: in an iteration whose original step produced a
result dict that did not report correct (a `None` result instead
crashes the chain at line 54 before any retry), and whose retry, when
affordable, also failed, the Driver skips forward exactly when the
ORIGINAL attempt's dict supplied a truthy `nextURL`, and it continues
with that URL; otherwise it transitions to Exhausted, regardless of any
`nextURL` the failed retry supplied. -/
theorem c1_skip_forward_amended (T start : Int) (u : Option String) (it : Iter)
    (rest : List Iter) (r1 : StepOutcome)
    (hu : truthy u = true) (ht : it.tLoop - start < T)
    (hres : it.res1 = some r1) (hc : r1.correct = false)
    (h2 : it.tRetry - start < T - 30 → resCorrect it.res2 = false) :
    (truthy r1.url = false →
      (runChain T start u (it :: rest)).exit = ExitKind.exhaustedBreak) ∧
    (truthy r1.url = true →
      (runChain T start u (it :: rest)).exit = (runChain T start r1.url rest).exit ∧
      ∃ pre, (runChain T start u (it :: rest)).attempts
        = pre ++ (runChain T start r1.url rest).attempts) := by
  have hc1 : resCorrect (some r1) = false := hc
  have hu1 : resUrl (some r1) = r1.url := rfl
  constructor
  · intro hf
    by_cases hr : it.tRetry - start < T - 30
    · have h2' := h2 hr
      simp [runChain, hu, ht, hres, hc1, hu1, hr, h2', hf]
    · simp [runChain, hu, ht, hres, hc1, hu1, hr, hf]
  · intro htr
    by_cases hr : it.tRetry - start < T - 30
    · have h2' := h2 hr
      refine ⟨by simp [runChain, hu, ht, hres, hc1, hu1, hr, h2', htr], ?_⟩
      exact ⟨[AttemptRec.mk (u.getD "") it.tLoop false,
              AttemptRec.mk (u.getD "") it.tRetry true],
        by simp [runChain, hu, ht, hres, hc1, hu1, hr, h2', htr]⟩
    · refine ⟨by simp [runChain, hu, ht, hres, hc1, hu1, hr, htr], ?_⟩
      exact ⟨[AttemptRec.mk (u.getD "") it.tLoop false],
        by simp [runChain, hu, ht, hres, hc1, hu1, hr, htr]⟩

/-- Witness for the amended C1 theorem at a concrete instance. -/
theorem c1_skip_forward_amended_witness :
    truthy (some "q") = true ∧ ((0 : Int) - 0 < 170) ∧
    (some (StepOutcome.mk false (some "n")) = some (StepOutcome.mk false (some "n"))) ∧
    (StepOutcome.mk false (some "n")).correct = false ∧
    ((1 : Int) - 0 < 170 - 30 → resCorrect (some (StepOutcome.mk false none)) = false) ∧
    ((truthy (StepOutcome.mk false (some "n")).url = false →
      (runChain 170 0 (some "q")
        [Iter.mk 0 (some (StepOutcome.mk false (some "n"))) 1
          (some (StepOutcome.mk false none))]).exit = ExitKind.exhaustedBreak) ∧
    (truthy (StepOutcome.mk false (some "n")).url = true →
      (runChain 170 0 (some "q")
        [Iter.mk 0 (some (StepOutcome.mk false (some "n"))) 1
          (some (StepOutcome.mk false none))]).exit
        = (runChain 170 0 (StepOutcome.mk false (some "n")).url []).exit ∧
      ∃ pre,
        (runChain 170 0 (some "q")
          [Iter.mk 0 (some (StepOutcome.mk false (some "n"))) 1
            (some (StepOutcome.mk false none))]).attempts
          = pre ++ (runChain 170 0 (StepOutcome.mk false (some "n")).url []).attempts)) :=
  ⟨by decide, by decide, rfl, by decide, fun _ => by decide,
    c1_skip_forward_amended 170 0 (some "q")
      (Iter.mk 0 (some (StepOutcome.mk false (some "n"))) 1 (some (StepOutcome.mk false none)))
      [] (StepOutcome.mk false (some "n"))
      (by decide) (by decide) rfl (by decide) (fun _ => by decide)⟩

/-- Claim C2, counterexample.  One iteration on URL `q` whose step is a
hard error (the step result is `None`) with ample budget at the would-be
retry check (remaining is 169 seconds, far above the 30-second margin):
the claim requires a retry exactly then, but the program raises
`AttributeError` at `quiz_solver.py` line 54 while formatting the
failure log, the `except` at line 73 ends the chain, and the URL is
attempted only once, with no retry. -/
theorem c2_hard_error_no_retry_counterexample :
    ((1 : Int) - 0 < 170 - 30) ∧
    runChain 170 0 (some "q")
      [Iter.mk 0 none 1 (some (StepOutcome.mk true none))]
      = RunResult.mk [AttemptRec.mk "q" 0 false] ExitKind.crashed := by
  constructor
  · decide
  · decide

/-- Claim C2, amended: the Driver executes a URL at most twice per
iteration, never a second retry.  When the failing step returned a
result dict with correct not true, the retry happens exactly when the
retry-check clock reading is below `T - 30` past the start, and
everything after the at most two attempts belongs to a new iteration
(the tail is empty or starts with a non-retry attempt).  When the
failing step returned no result (hard error), the `AttributeError` at
line 54 ends the chain after the single original attempt, with no retry
regardless of the remaining budget. -/
theorem c2_single_retry_bound (T start : Int) (u : Option String) (it : Iter)
    (rest : List Iter)
    (hu : truthy u = true) (ht : it.tLoop - start < T) :
    (it.res1 = none →
      runChain T start u (it :: rest)
        = RunResult.mk [AttemptRec.mk (u.getD "") it.tLoop false] ExitKind.crashed) ∧
    (∀ r1 : StepOutcome, it.res1 = some r1 → r1.correct = false →
      ∃ tail,
        (runChain T start u (it :: rest)).attempts
          = AttemptRec.mk (u.getD "") it.tLoop false ::
            ((if it.tRetry - start < T - 30
              then [AttemptRec.mk (u.getD "") it.tRetry true] else []) ++ tail) ∧
        (∀ b tl, tail = b :: tl → b.isRetry = false)) := by
  constructor
  · intro hn
    have hc0 : resCorrect (none : Option StepOutcome) = false := rfl
    simp [runChain, hu, ht, hn, hc0]
  · intro r1 hres hc
    have hc1 : resCorrect (some r1) = false := hc
    have hu1 : resUrl (some r1) = r1.url := rfl
    by_cases hr : it.tRetry - start < T - 30
    · by_cases h2 : resCorrect it.res2 = true
      · exact ⟨(runChain T start (resUrl it.res2) rest).attempts,
          by simp [runChain, hu, ht, hres, hc1, hu1, hr, h2],
          runChain_attempts_head_not_retry T start (resUrl it.res2) rest⟩
      · by_cases h3 : truthy r1.url = true
        · exact ⟨(runChain T start r1.url rest).attempts,
            by simp [runChain, hu, ht, hres, hc1, hu1, hr, h2, h3],
            runChain_attempts_head_not_retry T start r1.url rest⟩
        · exact ⟨[], by simp [runChain, hu, ht, hres, hc1, hu1, hr, h2, h3],
            fun b tl h => List.noConfusion h⟩
    · by_cases h3 : truthy r1.url = true
      · exact ⟨(runChain T start r1.url rest).attempts,
          by simp [runChain, hu, ht, hres, hc1, hu1, hr, h3],
          runChain_attempts_head_not_retry T start r1.url rest⟩
      · exact ⟨[], by simp [runChain, hu, ht, hres, hc1, hu1, hr, h3],
          fun b tl h => List.noConfusion h⟩

/-- Witness for the amended single-retry bound at a concrete instance. -/
theorem c2_single_retry_bound_witness :
    truthy (some "q") = true ∧ ((0 : Int) - 0 < 170) ∧
    (((Iter.mk 0 (some (StepOutcome.mk false (some "z"))) 1
        (some (StepOutcome.mk true none))).res1 = none →
      runChain 170 0 (some "q")
        [Iter.mk 0 (some (StepOutcome.mk false (some "z"))) 1
          (some (StepOutcome.mk true none))]
        = RunResult.mk [AttemptRec.mk ((some "q").getD "") 0 false] ExitKind.crashed) ∧
    (∀ r1 : StepOutcome,
      (Iter.mk 0 (some (StepOutcome.mk false (some "z"))) 1
        (some (StepOutcome.mk true none))).res1 = some r1 → r1.correct = false →
      ∃ tail,
        (runChain 170 0 (some "q")
          [Iter.mk 0 (some (StepOutcome.mk false (some "z"))) 1
            (some (StepOutcome.mk true none))]).attempts
          = AttemptRec.mk ((some "q").getD "") 0 false ::
            ((if (1 : Int) - 0 < 170 - 30
              then [AttemptRec.mk ((some "q").getD "") 1 true] else []) ++ tail) ∧
        (∀ b tl, tail = b :: tl → b.isRetry = false))) :=
  ⟨by decide, by decide,
    c2_single_retry_bound 170 0 (some "q")
      (Iter.mk 0 (some (StepOutcome.mk false (some "z"))) 1 (some (StepOutcome.mk true none)))
      [] (by decide) (by decide)⟩

/-- Claim C3: for every clock trace and step-result trace, every attempt
the Driver admits starts with positive remaining budget at the clock
reading of its gate (`while` condition for originals, affordability
check for retries), and a retry moreover starts with more than 30
seconds remaining. -/
theorem c3_no_step_past_deadline (T start : Int) (l : List Iter) (u : Option String)
    (a : AttemptRec) (ha : a ∈ (runChain T start u l).attempts) :
    0 < T - (a.time - start) ∧ (a.isRetry = true → 30 < T - (a.time - start)) := by
  induction l generalizing u with
  | nil => simp [runChain] at ha
  | cons it rest ih =>
    simp only [runChain] at ha
    by_cases hu : truthy u = true
    · by_cases ht : it.tLoop - start < T
      · by_cases h1 : resCorrect it.res1 = true
        · by_cases h2 : truthy (resUrl it.res1) = true
          · simp [hu, ht, h1, h2] at ha
            rcases ha with rfl | ha'
            · exact ⟨by show 0 < T - (it.tLoop - start); omega,
                fun h => Bool.noConfusion h⟩
            · exact ih (resUrl it.res1) ha'
          · simp [hu, ht, h1, h2] at ha
            subst ha
            exact ⟨by show 0 < T - (it.tLoop - start); omega,
              fun h => Bool.noConfusion h⟩
        · by_cases hn : it.res1 = none
          · have hc0 : resCorrect (none : Option StepOutcome) = false := rfl
            simp [hu, ht, h1, hn, hc0] at ha
            subst ha
            exact ⟨by show 0 < T - (it.tLoop - start); omega,
              fun h => Bool.noConfusion h⟩
          · by_cases hr : it.tRetry - start < T - 30
            · by_cases h2 : resCorrect it.res2 = true
              · simp [hu, ht, h1, hn, hr, h2] at ha
                rcases ha with rfl | rfl | ha'
                · exact ⟨by show 0 < T - (it.tLoop - start); omega,
                    fun h => Bool.noConfusion h⟩
                · exact ⟨by show 0 < T - (it.tRetry - start); omega,
                    fun _ => by show 30 < T - (it.tRetry - start); omega⟩
                · exact ih (resUrl it.res2) ha'
              · by_cases h3 : truthy (resUrl it.res1) = true
                · simp [hu, ht, h1, hn, hr, h2, h3] at ha
                  rcases ha with rfl | rfl | ha'
                  · exact ⟨by show 0 < T - (it.tLoop - start); omega,
                      fun h => Bool.noConfusion h⟩
                  · exact ⟨by show 0 < T - (it.tRetry - start); omega,
                      fun _ => by show 30 < T - (it.tRetry - start); omega⟩
                  · exact ih (resUrl it.res1) ha'
                · simp [hu, ht, h1, hn, hr, h2, h3] at ha
                  rcases ha with rfl | rfl
                  · exact ⟨by show 0 < T - (it.tLoop - start); omega,
                      fun h => Bool.noConfusion h⟩
                  · exact ⟨by show 0 < T - (it.tRetry - start); omega,
                      fun _ => by show 30 < T - (it.tRetry - start); omega⟩
            · by_cases h3 : truthy (resUrl it.res1) = true
              · simp [hu, ht, h1, hn, hr, h3] at ha
                rcases ha with rfl | ha'
                · exact ⟨by show 0 < T - (it.tLoop - start); omega,
                    fun h => Bool.noConfusion h⟩
                · exact ih (resUrl it.res1) ha'
              · simp [hu, ht, h1, hn, hr, h3] at ha
                subst ha
                exact ⟨by show 0 < T - (it.tLoop - start); omega,
                  fun h => Bool.noConfusion h⟩
      · simp [hu, ht] at ha
    · simp [hu] at ha

/-- Witness for the budget gate at a concrete instance. -/
theorem c3_no_step_past_deadline_witness :
    AttemptRec.mk "q" 5 false ∈
      (runChain 170 0 (some "q")
        [Iter.mk 5 (some (StepOutcome.mk true none)) 5 none]).attempts ∧
    (0 < 170 - ((AttemptRec.mk "q" 5 false).time - 0) ∧
      ((AttemptRec.mk "q" 5 false).isRetry = true →
        30 < 170 - ((AttemptRec.mk "q" 5 false).time - 0))) :=
  ⟨by decide,
    c3_no_step_past_deadline 170 0
      [Iter.mk 5 (some (StepOutcome.mk true none)) 5 none] (some "q")
      (AttemptRec.mk "q" 5 false) (by decide)⟩

/-- Claim C9, counterexample.  A session that exits successfully (one
correct step, no next URL) releases only the browser client: the LLM
HTTP client and the submission HTTP client are not in the released set,
refuting the claim that every exit path releases all three. -/
theorem c9_clients_counterexample :
    (solveQuizChain 170 0 (some "q")
      [Iter.mk 0 (some (StepOutcome.mk true none)) 0 none]).exit
        = ExitKind.completedBreak ∧
    ClientKind.llm ∉ (solveQuizChain 170 0 (some "q")
      [Iter.mk 0 (some (StepOutcome.mk true none)) 0 none]).closed ∧
    ClientKind.submission ∉ (solveQuizChain 170 0 (some "q")
      [Iter.mk 0 (some (StepOutcome.mk true none)) 0 none]).closed := by
  decide

/-- Claim C9, amended: on every exit path the session's guaranteed
cleanup releases exactly the fetch (browser) client; the completion
(LLM) client and the submission client are never released by the
session. -/
theorem c9_only_browser_closed_amended (T start : Int) (u : Option String)
    (iters : List Iter) :
    (solveQuizChain T start u iters).closed = [ClientKind.browser] ∧
    ClientKind.llm ∉ (solveQuizChain T start u iters).closed ∧
    ClientKind.submission ∉ (solveQuizChain T start u iters).closed := by
  refine ⟨rfl, ?_, ?_⟩ <;> simp [solveQuizChain]

/-- Claim C8: interpreting the spec's fenced completion example (solution
JSON with a quoted answer value, wrapped in a tagged code fence; the
spec's abstract field name `submitURL` is the concrete key `submit_url`)
yields a solution whose answer is the STRING 42, not the number 42. -/
theorem c8_fenced_example_answer_string :
    parseLlmResponse c8text
      = some (Json.obj (JsonKvs.cons ("submit_url".data)
          (Json.str ("https://x/submit".data))
          (JsonKvs.cons ("answer".data) (Json.str ("42".data)) JsonKvs.nil))) ∧
    Json.str ("42".data) ≠ Json.int 42 :=
  ⟨rfl, fun h => Json.noConfusion h⟩

/-- Claim C4, counterexample.  A submission whose HTTP response has the
success status 200 and a non-JSON body returns `None` (the decode error
raised by `response.json()` is swallowed by the catch-all handler at
`submission_handler.py` line 91), not a StepOutcome-shaped dict; the
reason string demanded by the claim appears nowhere in the code. -/
theorem c4_unparseable_body_counterexample :
    submitAnswer MAX_FILE_SIZE ("a".data) ("s".data) ("u".data) (Json.int 1)
      (NetBehavior.response (HttpResponse.mk 200 ("not json".data))) = (none, true) ∧
    (none : Option Json) ≠
      some (Json.obj (JsonKvs.cons ("correct".data) (Json.bool false)
        (JsonKvs.cons ("reason".data)
          (Json.str ("unparseable submission response".data)) JsonKvs.nil))) :=
  ⟨rfl, fun h => Option.noConfusion h⟩

/-- Claim C4, amended: for every payload within the size limit, an HTTP
success response with a body that is not parseable JSON makes
`submit_answer` return `None` — an absent result, with no exception
escaping — rather than a StepOutcome carrying an `unparseable submission
response` reason. -/
theorem c4_unparseable_body_amended (maxFileSize : Nat)
    (email secret quizUrl : List Char) (answer : Json) (body : List Char)
    (hsize : ¬ utf8Len (jsonDumps (buildPayload email secret quizUrl answer)) > maxFileSize)
    (hbody : jsonLoads body = none) :
    submitAnswer maxFileSize email secret quizUrl answer
      (NetBehavior.response (HttpResponse.mk 200 body)) = (none, true) := by
  simp [submitAnswer, hsize, hbody]

/-- Witness for the amended C4 theorem at a concrete small payload. -/
theorem c4_unparseable_body_amended_witness :
    (¬ utf8Len (jsonDumps (buildPayload ("a".data) ("s".data) ("u".data) (Json.int 1)))
        > MAX_FILE_SIZE) ∧
    jsonLoads ("not json".data) = none ∧
    submitAnswer MAX_FILE_SIZE ("a".data) ("s".data) ("u".data) (Json.int 1)
      (NetBehavior.response (HttpResponse.mk 200 ("not json".data))) = (none, true) :=
  ⟨by decide, rfl,
    c4_unparseable_body_amended MAX_FILE_SIZE ("a".data) ("s".data) ("u".data)
      (Json.int 1) ("not json".data) (by decide) rfl⟩

/-- Claim C7: a submission payload whose serialized UTF-8 byte size
exceeds the configured maximum performs no network call, whatever the
network would have done, and fails locally with `None`. -/
theorem c7_payload_size_gate (maxFileSize : Nat) (email secret quizUrl : List Char)
    (answer : Json) (net : NetBehavior)
    (hbig : utf8Len (jsonDumps (buildPayload email secret quizUrl answer)) > maxFileSize) :
    submitAnswer maxFileSize email secret quizUrl answer net = (none, false) := by
  simp [submitAnswer, hbig]

/-- Witness for the size gate with a limit the payload exceeds. -/
theorem c7_payload_size_gate_witness :
    utf8Len (jsonDumps (buildPayload ("a".data) ("s".data) ("u".data) (Json.int 1))) > 3 ∧
    submitAnswer 3 ("a".data) ("s".data) ("u".data) (Json.int 1)
      NetBehavior.transportError = (none, false) :=
  ⟨by decide,
    c7_payload_size_gate 3 ("a".data) ("s".data) ("u".data) (Json.int 1)
      NetBehavior.transportError (by decide)⟩

/-- Dropping a trailing character satisfying `p` is absorbed by `dropTail`. -/
theorem dropTail_append_one (p : Char → Bool) (c : Char) (hc : p c = true)
    (l : List Char) : dropTail p (l ++ [c]) = dropTail p l := by
  simp [dropTail, List.reverse_append, List.dropWhile_cons, hc]

/-- Stripping ignores a leading whitespace character. -/
theorem pyStrip_cons_ws (c : Char) (hc : pyWs c = true) (l : List Char) :
    pyStrip (c :: l) = pyStrip l := by
  simp [pyStrip, List.dropWhile_cons, hc]

/-- Stripping ignores a trailing whitespace character. -/
theorem pyStrip_append_ws (c : Char) (hc : pyWs c = true) (l : List Char) :
    pyStrip (l ++ [c]) = pyStrip l := by
  unfold pyStrip
  rw [List.dropWhile_append]
  by_cases he : (l.dropWhile pyWs).isEmpty
  · rw [if_pos he]
    have h0 : l.dropWhile pyWs = [] := by simpa [List.isEmpty_iff] using he
    rw [h0]
    simp [List.dropWhile_cons, hc, dropTail]
  · rw [if_neg he]
    exact dropTail_append_one pyWs c hc _

/-- A list whose first and last characters are not whitespace strips to
itself. -/
theorem pyStrip_no_strip (a b : Char) (ha : pyWs a = false) (hb : pyWs b = false)
    (m : List Char) : pyStrip (a :: (m ++ [b])) = a :: (m ++ [b]) := by
  simp [pyStrip, dropTail, List.dropWhile_cons, ha, hb, List.reverse_append]

/-- A list is a Boolean suffix of anything followed by itself. -/
theorem isSuffixOf_append_self (l x : List Char) : l.isSuffixOf (x ++ l) = true := by
  simp [List.isSuffixOf, List.reverse_append, isPrefixOf_self_append]

/-- A Boolean prefix of a list is inherited by its append prefixes. -/
theorem isPrefixOf_append_elim (a b l : List Char)
    (h : (a ++ b).isPrefixOf l = true) : a.isPrefixOf l = true := by
  rw [List.isPrefixOf_iff_prefix] at h ⊢
  exact (List.prefix_append a b).trans h

/-- Fence removal on a payload wrapped in a `json`-tagged fence pair
reduces to stripping the payload. -/
theorem removeFences_wrapJson (P : List Char) :
    removeFences (fenceJson ++ '\n' :: (P ++ '\n' :: fence3)) = pyStrip P := by
  have hfj : fenceJson = [btChar, btChar, btChar, 'j', 's', 'o', 'n'] := rfl
  have hf3 : fence3 = [btChar, btChar, btChar] := rfl
  have hbt : pyWs btChar = false := by decide
  have hnl : pyWs '\n' = true := by decide
  have hW : fenceJson ++ '\n' :: (P ++ '\n' :: fence3)
      = btChar :: (([btChar, btChar, 'j', 's', 'o', 'n', '\n']
          ++ (P ++ ['\n', btChar, btChar])) ++ [btChar]) := by
    simp [hfj, hf3]
  unfold removeFences
  rw [hW, pyStrip_no_strip btChar btChar hbt hbt, ← hW]
  have hpre : dropPre fenceJson (fenceJson ++ '\n' :: (P ++ '\n' :: fence3))
      = '\n' :: (P ++ '\n' :: fence3) := by
    simp [dropPre, isPrefixOf_self_append, List.drop_left]
  rw [hpre]
  have hne : fence3.isPrefixOf ('\n' :: (P ++ '\n' :: fence3)) = false := by
    have hb : (btChar == '\n') = false := by decide
    rw [hf3]
    simp [List.isPrefixOf, hb]
  have hpre3 : dropPre fence3 ('\n' :: (P ++ '\n' :: fence3))
      = '\n' :: (P ++ '\n' :: fence3) := by
    simp [dropPre, hne]
  rw [hpre3]
  have hM : '\n' :: (P ++ '\n' :: fence3) = ('\n' :: (P ++ ['\n'])) ++ fence3 := by
    simp [hf3]
  have hsuf : dropSuf fence3 ('\n' :: (P ++ '\n' :: fence3)) = '\n' :: (P ++ ['\n']) := by
    rw [hM]
    have hlen : (('\n' :: (P ++ ['\n'])) ++ fence3).length - fence3.length
        = ('\n' :: (P ++ ['\n'])).length := by
      simp [hf3]
    simp only [dropSuf, isSuffixOf_append_self, if_true, hlen, List.take_left]
  rw [hsuf, pyStrip_cons_ws '\n' hnl, pyStrip_append_ws '\n' hnl]

/-- Fence removal on a payload wrapped in an untagged fence pair reduces
to stripping the payload. -/
theorem removeFences_wrapBare (P : List Char) :
    removeFences (fence3 ++ '\n' :: (P ++ '\n' :: fence3)) = pyStrip P := by
  have hfj : fenceJson = [btChar, btChar, btChar, 'j', 's', 'o', 'n'] := rfl
  have hf3 : fence3 = [btChar, btChar, btChar] := rfl
  have hbt : pyWs btChar = false := by decide
  have hnl : pyWs '\n' = true := by decide
  have hW : fence3 ++ '\n' :: (P ++ '\n' :: fence3)
      = btChar :: (([btChar, btChar, '\n']
          ++ (P ++ ['\n', btChar, btChar])) ++ [btChar]) := by
    simp [hf3]
  unfold removeFences
  rw [hW, pyStrip_no_strip btChar btChar hbt hbt, ← hW]
  have hnej : fenceJson.isPrefixOf (fence3 ++ '\n' :: (P ++ '\n' :: fence3)) = false := by
    have hbb : (btChar == btChar) = true := by decide
    have hj : ('j' == '\n') = false := by decide
    rw [hfj, hf3]
    simp [List.isPrefixOf, hbb, hj]
  have hprej : dropPre fenceJson (fence3 ++ '\n' :: (P ++ '\n' :: fence3))
      = fence3 ++ '\n' :: (P ++ '\n' :: fence3) := by
    simp [dropPre, hnej]
  rw [hprej]
  have hpre3 : dropPre fence3 (fence3 ++ '\n' :: (P ++ '\n' :: fence3))
      = '\n' :: (P ++ '\n' :: fence3) := by
    simp [dropPre, isPrefixOf_self_append, List.drop_left]
  rw [hpre3]
  have hM : '\n' :: (P ++ '\n' :: fence3) = ('\n' :: (P ++ ['\n'])) ++ fence3 := by
    simp [hf3]
  have hsuf : dropSuf fence3 ('\n' :: (P ++ '\n' :: fence3)) = '\n' :: (P ++ ['\n']) := by
    rw [hM]
    have hlen : (('\n' :: (P ++ ['\n'])) ++ fence3).length - fence3.length
        = ('\n' :: (P ++ ['\n'])).length := by
      simp [hf3]
    simp only [dropSuf, isSuffixOf_append_self, if_true, hlen, List.take_left]
  rw [hsuf, pyStrip_cons_ws '\n' hnl, pyStrip_append_ws '\n' hnl]

/-- Fence removal is the identity on a pre-stripped payload that carries
no fence of its own. -/
theorem removeFences_plain (P : List Char) (hs : pyStrip P = P)
    (hp : fence3.isPrefixOf P = false) (hq : fence3.isSuffixOf P = false) :
    removeFences P = P := by
  have hpj : fenceJson.isPrefixOf P = false := by
    cases hx : fenceJson.isPrefixOf P with
    | false => rfl
    | true =>
      have : fence3.isPrefixOf P = true :=
        isPrefixOf_append_elim fence3 ("json".data) P hx
      rw [this] at hp
      exact absurd hp (by simp)
  unfold removeFences
  rw [hs]
  simp [dropPre, hpj, hp, dropSuf, hq, hs]

/-- Claim C5, counterexample.  `c5plain` strict-parses to a valid
solution; the same payload wrapped in one pair of code fences with
language tag `python` makes the strict parse fail (only the bare
three-character fence is removed, leaving the tag), and the fallback
finds no `/submit` URL, so interpretation fails entirely instead of
yielding the same solution. -/
theorem c5_fence_counterexample :
    parseLlmResponse c5plain
      = some (Json.obj (JsonKvs.cons ("submit_url".data)
          (Json.str ("https://x/s".data))
          (JsonKvs.cons ("answer".data) (Json.int 1) JsonKvs.nil))) ∧
    parseLlmResponse c5wrapped = none :=
  ⟨rfl, rfl⟩

/-- Claim C5, amended: fence-stripping idempotence holds for a fence
with the `json` tag or with no tag: for every pre-stripped payload `P`
that carries no fence of its own and strict-parses, interpreting `P`
wrapped in such a fence pair yields the same result as interpreting `P`
unwrapped.  (A fence with any other language tag defeats the stripping,
as the counterexample shows.) -/
theorem c5_fence_stripping_amended (P : List Char) (j : Json)
    (hs : pyStrip P = P)
    (hp : fence3.isPrefixOf P = false)
    (hq : fence3.isSuffixOf P = false)
    (hl : jsonLoads P = some j) :
    parseLlmResponse (fenceJson ++ '\n' :: (P ++ '\n' :: fence3)) = parseLlmResponse P ∧
    parseLlmResponse (fence3 ++ '\n' :: (P ++ '\n' :: fence3)) = parseLlmResponse P := by
  have e0 : removeFences P = P := removeFences_plain P hs hp hq
  have e1 := removeFences_wrapJson P
  have e2 := removeFences_wrapBare P
  rw [hs] at e1 e2
  constructor
  · unfold parseLlmResponse
    rw [e0, e1, hl]
    cases j <;> rfl
  · unfold parseLlmResponse
    rw [e0, e2, hl]
    cases j <;> rfl

/-- Witness for the amended C5 theorem at a concrete payload. -/
theorem c5_fence_stripping_amended_witness :
    pyStrip c5okPlain = c5okPlain ∧
    fence3.isPrefixOf c5okPlain = false ∧
    fence3.isSuffixOf c5okPlain = false ∧
    jsonLoads c5okPlain
      = some (Json.obj (JsonKvs.cons ("submit_url".data)
          (Json.str ("https://x/submit".data))
          (JsonKvs.cons ("answer".data) (Json.int 1) JsonKvs.nil))) ∧
    (parseLlmResponse (fenceJson ++ '\n' :: (c5okPlain ++ '\n' :: fence3))
        = parseLlmResponse c5okPlain ∧
      parseLlmResponse (fence3 ++ '\n' :: (c5okPlain ++ '\n' :: fence3))
        = parseLlmResponse c5okPlain) :=
  ⟨rfl, rfl, rfl, rfl,
    c5_fence_stripping_amended c5okPlain
      (Json.obj (JsonKvs.cons ("submit_url".data)
        (Json.str ("https://x/submit".data))
        (JsonKvs.cons ("answer".data) (Json.int 1) JsonKvs.nil)))
      rfl rfl rfl rfl⟩
